import Mathlib

/-!
Verification development for the LightWave2D FDTD time-stepping core
(directory `LightWave2D/cpp`): the `Config`, `MeshSet`, `FieldSet` data
holders, the two source variants, the Yee-step kernels of
`FDTDSimulator` (simulator.cpp) and the `run` loop.

Two-dimensional arrays of doubles are modelled as total functions
`ℕ → ℕ → ℚ` and arithmetic is exact rational arithmetic.  The C++ code
allocates its gradient buffers uninitialised (`pybind11::array_t`
performs no zero fill), so every gradient definition takes an extra
`junk` grid giving the values of the cells its loop nest never writes.
The transcendental functions `std::cos` and `std::exp` are abstracted
as parameters `rcos rexp : ℚ → ℚ`.
-/

namespace LightWave2D

/-- Two-dimensional array of doubles, modelled as a total function. -/
abbrev Grid : Type := ℕ → ℕ → ℚ

/-- Three-dimensional recording array (the caller-allocated `Ez_time`). -/
abbrev Grid3 : Type := ℕ → ℕ → ℕ → ℚ

/-- Model of `Config` (config.cpp): grid/time parameters, the step counter
`iteration` and the current simulated time `time`. -/
structure Config where
  dx : ℚ
  dy : ℚ
  dt : ℚ
  nx : ℕ
  ny : ℕ
  time_stamp : List ℚ
  iteration : ℕ
  time : ℚ

/-- Model of the `Config` constructor (config.cpp): the six parameters are
stored and the in-class initialisers leave `iteration = 0` and
`time = 0` (the constructor does not touch `time`). -/
def Config.make (dx dy dt : ℚ) (nx ny : ℕ) (time_stamp : List ℚ) : Config :=
  ⟨dx, dy, dt, nx, ny, time_stamp, 0, 0⟩

/-- Model of `Config::next` (config.cpp): `iteration += 1;
time = time_stamp[iteration];`.  The vector access is unchecked; past the
end it is an out-of-bounds read, modelled here by the default `0` of
`List.getD` (that value is produced only by the final, out-of-bounds
call of a run and is never consumed afterwards). -/
def Config.next (c : Config) : Config :=
  { c with iteration := c.iteration + 1,
           time := c.time_stamp.getD (c.iteration + 1) 0 }

/-- Model of `MeshSet` (mesh_set.h): material maps plus the scalar
permeability `mu`. -/
structure MeshSet where
  epsilon : Grid
  n2 : Grid
  gamma : Grid
  mu : ℚ
  sigma_x : Grid
  sigma_y : Grid

/-- Model of the `MeshSet` constructor (mesh_set.cpp): the member
initialiser list stores the six arguments; the body is empty, so no
validation of any kind is performed. -/
def MeshSet.construct (epsilon n2 gamma : Grid) (mu : ℚ)
    (sigma_x sigma_y : Grid) : MeshSet :=
  ⟨epsilon, n2, gamma, mu, sigma_x, sigma_y⟩

/-- Model of `FieldSet` (field_set.h): the three working field arrays. -/
structure FieldSet where
  Ez : Grid
  Hx : Grid
  Hy : Grid

/-- Model of the `FieldSet` constructor (field_set.cpp): allocates the
three `(nx, ny)` arrays and calls `set_to_zero`, so every cell is `0`. -/
def FieldSet.init : FieldSet :=
  ⟨fun _ _ => 0, fun _ _ => 0, fun _ _ => 0⟩

/-- The `dEz_dx` buffer of `FDTDSimulator::compute_yee_gradients`
(simulator.cpp:22-24): shape `(nx-1, ny)`, written by the loop nest
`i ∈ [0, nx-1), j ∈ [0, ny)`; outside that range the buffer keeps its
uninitialised allocation content `junk`. -/
def dEz_dx (c : Config) (junk Ez : Grid) : Grid := fun i j =>
  if i < c.nx - 1 ∧ j < c.ny then (Ez (i + 1) j - Ez i j) / c.dx else junk i j

/-- The `dEz_dy` buffer of `FDTDSimulator::compute_yee_gradients`
(simulator.cpp:27-29): shape `(nx, ny-1)`, but the loop nest runs
`i ∈ [1, nx), j ∈ [0, ny-1)` — row `i = 0` is never written and keeps
its uninitialised allocation content `junk`. -/
def dEz_dy (c : Config) (junk Ez : Grid) : Grid := fun i j =>
  if 1 ≤ i ∧ i < c.nx ∧ j < c.ny - 1 then (Ez i (j + 1) - Ez i j) / c.dy
  else junk i j

/-- Model of `FDTDSimulator::update_magnetic_fields` (simulator.cpp:36-62):
`Hx(i,j) -= (dt/mu) * dEz_dy(i,j) * (1 - sigma_y(i,j)*(dt/mu)/2)` for
`i ∈ [0, nx), j ∈ [0, ny-1)` and
`Hy(i,j) += (dt/mu) * dEz_dx(i,j) * (1 - sigma_x(i,j)*(dt/mu)/2)` for
`i ∈ [0, nx-1), j ∈ [0, ny)`.  `jdx`/`jdy` are the uninitialised
contents of the two gradient buffers allocated by this call. -/
def update_magnetic_fields (c : Config) (m : MeshSet) (jdx jdy : Grid)
    (f : FieldSet) : FieldSet :=
  { f with
    Hx := fun i j =>
      if i < c.nx ∧ j < c.ny - 1 then
        f.Hx i j -
          c.dt / m.mu * dEz_dy c jdy f.Ez i j *
            (1 - m.sigma_y i j * (c.dt / m.mu) / 2)
      else f.Hx i j,
    Hy := fun i j =>
      if i < c.nx - 1 ∧ j < c.ny then
        f.Hy i j +
          c.dt / m.mu * dEz_dx c jdx f.Ez i j *
            (1 - m.sigma_x i j * (c.dt / m.mu) / 2)
      else f.Hy i j }

/-- The `dHy_dx` buffer of `FDTDSimulator::compute_magnetic_field_gradients`
(simulator.cpp:84-86): shape `(nx-1, ny-1)`, written only on the strict
interior `i ∈ [1, nx-1), j ∈ [1, ny-1)`. -/
def dHy_dx (c : Config) (junk Hy : Grid) : Grid := fun i j =>
  if 1 ≤ i ∧ i < c.nx - 1 ∧ 1 ≤ j ∧ j < c.ny - 1 then
    (Hy i j - Hy (i - 1) j) / c.dx
  else junk i j

/-- The `dHx_dy` buffer of `FDTDSimulator::compute_magnetic_field_gradients`
(simulator.cpp:89-91): shape `(nx-1, ny-1)`, written only on the strict
interior `i ∈ [1, nx-1), j ∈ [1, ny-1)`. -/
def dHx_dy (c : Config) (junk Hx : Grid) : Grid := fun i j =>
  if 1 ≤ i ∧ i < c.nx - 1 ∧ 1 ≤ j ∧ j < c.ny - 1 then
    (Hx i j - Hx i (j - 1)) / c.dy
  else junk i j

/-- Model of `FDTDSimulator::update_electric_field` (simulator.cpp:137-156):
`Ez(i,j) += (dt/epsilon(i,j)) * (dHy_dx(i,j) - dHx_dy(i,j))` on the
strict interior `i ∈ [1, nx-1), j ∈ [1, ny-1)`. -/
def update_electric_field (c : Config) (m : MeshSet) (jyx jxy : Grid)
    (f : FieldSet) : FieldSet :=
  { f with
    Ez := fun i j =>
      if 1 ≤ i ∧ i < c.nx - 1 ∧ 1 ≤ j ∧ j < c.ny - 1 then
        f.Ez i j +
          c.dt / m.epsilon i j *
            (dHy_dx c jyx f.Hy i j - dHx_dy c jxy f.Hx i j)
      else f.Ez i j }

/-- Model of `FDTDSimulator::apply_kerr_effect` (simulator.cpp:98-116);
the `run` loop never calls it (the call at simulator.cpp:212 is
commented out). -/
def apply_kerr_effect (c : Config) (m : MeshSet) (f : FieldSet) : FieldSet :=
  { f with
    Ez := fun i j =>
      if 1 ≤ i ∧ i < c.nx - 1 ∧ 1 ≤ j ∧ j < c.ny - 1 then
        f.Ez i j * (c.dt / (m.epsilon i j + m.n2 i j * (f.Ez i j * f.Ez i j)))
      else f.Ez i j }

/-- Model of `FDTDSimulator::apply_second_harmonic_generation`
(simulator.cpp:120-134): `Ez(i,j) += gamma(i,j) * Ez(i,j)^2 * dt` for
all `i ∈ [0, nx), j ∈ [0, ny)`. -/
def apply_second_harmonic_generation (c : Config) (m : MeshSet)
    (f : FieldSet) : FieldSet :=
  { f with
    Ez := fun i j =>
      if i < c.nx ∧ j < c.ny then
        f.Ez i j + m.gamma i j * (f.Ez i j * f.Ez i j) * c.dt
      else f.Ez i j }

/-- Model of `std::clamp(x, 0.0, 1.0)`. -/
def clamp01 (x : ℚ) : ℚ := min (max x 0) 1

/-- Model of `FDTDSimulator::apply_absorption` (simulator.cpp:159-177):
`Ez(i,j) *= clamp(1 - (sigma_x(i,j)+sigma_y(i,j)) * (dt/epsilon(i,j))/2, 0, 1)`
for all `i ∈ [0, nx), j ∈ [0, ny)`. -/
def apply_absorption (c : Config) (m : MeshSet) (f : FieldSet) : FieldSet :=
  { f with
    Ez := fun i j =>
      if i < c.nx ∧ j < c.ny then
        f.Ez i j *
          clamp01 (1 - (m.sigma_x i j + m.sigma_y i j) *
            (c.dt / m.epsilon i j) / 2)
      else f.Ez i j }

/-- Model of the two source variants of source.h: `MultiWavelength`
carries the frequency/amplitude/delay vectors, `Impulsion` the scalar
amplitude, duration and delay; both carry the `(x, y)` injection
index rows. -/
inductive Source where
  | multiWavelength (omega amplitude delay : List ℚ)
      (indexes : List (ℕ × ℕ))
  | impulsion (amplitude duration delay : ℚ) (indexes : List (ℕ × ℕ))

/-- Injection index rows of a source (the `indexes` member). -/
def Source.indexes : Source → List (ℕ × ℕ)
  | .multiWavelength _ _ _ idx => idx
  | .impulsion _ _ _ idx => idx

/-- Per-cell scalar contribution of a source at time `t`
(source/interface.cpp): the `MultiWavelength` inner loop accumulates
`amplitude[k] * cos(omega[k]*t + delay[k])` over `k < omega.length`
(reads of `amplitude`/`delay` are unchecked; past their end the model
reads the `getD` default); `Impulsion` contributes
`amplitude * exp(-((t - delay)/duration)^2)`. -/
def Source.term (rcos rexp : ℚ → ℚ) (t : ℚ) : Source → ℚ
  | .multiWavelength om am de _ =>
      (List.range om.length).foldl
        (fun acc k => acc + am.getD k 0 * rcos (om.getD k 0 * t + de.getD k 0))
        0
  | .impulsion A dur del _ =>
      A * rexp (-(((t - del) / dur) * ((t - del) / dur)))

/-- One unchecked `Ez(x, y) += v` write. -/
def inject_at (x y : ℕ) (v : ℚ) (Ez : Grid) : Grid :=
  fun i j => if i = x ∧ j = y then Ez i j + v else Ez i j

/-- Model of `add_to_field` (source/interface.cpp): for each index row
`(x, y)` the source adds its per-cell contribution at the current
`config.time` to `Ez(x, y)`. -/
def add_to_field (rcos rexp : ℚ → ℚ) (c : Config) (s : Source)
    (f : FieldSet) : FieldSet :=
  { f with
    Ez := s.indexes.foldl
      (fun Ez p => inject_at p.1 p.2 (s.term rcos rexp c.time) Ez) f.Ez }

/-- Model of `FDTDSimulator::update_field` (simulator.cpp:181-189): copy
the full `Ez` array into row `config.iteration` of the recording
array.  The row index is unchecked. -/
def update_field (c : Config) (ezt : Grid3) (f : FieldSet) : Grid3 :=
  fun k i j =>
    if k = c.iteration ∧ i < c.nx ∧ j < c.ny then f.Ez i j else ezt k i j

/-- Uninitialised contents of the four gradient buffers freshly allocated
during one loop iteration of `run`. -/
structure Junk where
  jdx : Grid
  jdy : Grid
  jyx : Grid
  jxy : Grid

/-- State threaded through the `run` loop: the mutable `config`, the
field arrays and the caller's recording array. -/
structure RunState where
  cfg : Config
  fields : FieldSet
  ezTime : Grid3

/-- One iteration of the `run` loop (simulator.cpp:203-228): H-update,
E-update (the Kerr call is commented out), SHG, absorption, source
injection in list order, recording, then `config.next()` —
unconditionally, also on the last iteration. -/
def run_step (m : MeshSet) (rcos rexp : ℚ → ℚ) (srcs : List Source)
    (jk : Junk) (st : RunState) : RunState :=
  let f1 := update_magnetic_fields st.cfg m jk.jdx jk.jdy st.fields
  let f2 := update_electric_field st.cfg m jk.jyx jk.jxy f1
  let f3 := apply_second_harmonic_generation st.cfg m f2
  let f4 := apply_absorption st.cfg m f3
  let f5 := srcs.foldl (fun f s => add_to_field rcos rexp st.cfg s f) f4
  { cfg := st.cfg.next, fields := f5,
    ezTime := update_field st.cfg st.ezTime f5 }

/-- Iterate `run_step` for `n` more iterations; `k` is the loop counter
value of the first remaining iteration and indexes the fresh junk
buffers `J k` that iteration allocates. -/
def runFrom (m : MeshSet) (rcos rexp : ℚ → ℚ) (srcs : List Source)
    (J : ℕ → Junk) : ℕ → ℕ → RunState → RunState
  | _, 0, st => st
  | k, n + 1, st =>
      runFrom m rcos rexp srcs J (k + 1) n
        (run_step m rcos rexp srcs (J k) st)

/-- Model of `FDTDSimulator::run` (simulator.cpp:193-230): construct a
zeroed `FieldSet` and execute `time_stamp.size()` loop iterations.
No validation of any kind precedes the loop. -/
def run (m : MeshSet) (rcos rexp : ℚ → ℚ) (srcs : List Source)
    (J : ℕ → Junk) (c : Config) (ez0 : Grid3) : RunState :=
  runFrom m rcos rexp srcs J 0 c.time_stamp.length ⟨c, FieldSet.init, ez0⟩

/-- State at the start of loop iteration `k` of a run (equivalently:
after the first `k` iterations). -/
def stateAtStep (m : MeshSet) (rcos rexp : ℚ → ℚ) (srcs : List Source)
    (J : ℕ → Junk) (c : Config) (ez0 : Grid3) (k : ℕ) : RunState :=
  runFrom m rcos rexp srcs J 0 k ⟨c, FieldSet.init, ez0⟩

/-- Value of `Ez` immediately after the source injections of the loop
iteration that starts in state `st` (after sub-steps H-update,
E-update, SHG, absorption and injection, before recording and the
time advance). -/
def postInjectionEz (m : MeshSet) (rcos rexp : ℚ → ℚ) (srcs : List Source)
    (jk : Junk) (st : RunState) : Grid :=
  (srcs.foldl (fun f s => add_to_field rcos rexp st.cfg s f)
    (apply_absorption st.cfg m
      (apply_second_harmonic_generation st.cfg m
        (update_electric_field st.cfg m jk.jyx jk.jxy
          (update_magnetic_fields st.cfg m jk.jdx jk.jdy st.fields))))).Ez

/-- Amplitude scaling of a source: every amplitude entry of a
`MultiWavelength` source, or the amplitude of an `Impulsion`, is
multiplied by `a`. -/
def Source.scaleAmp (a : ℚ) : Source → Source
  | .multiWavelength om am de idx =>
      .multiWavelength om (am.map fun x => a * x) de idx
  | .impulsion A dur del idx => .impulsion (a * A) dur del idx

/-- The everywhere-zero grid. -/
def zeroGrid : Grid := fun _ _ => 0

/-- The everywhere-one grid. -/
def oneGrid : Grid := fun _ _ => 1

/-- Invariant relating a run with amplitude-scaled sources (state `st2`)
to the original run (state `st1`): the configs agree, `Ez` and `Hy` are
scaled everywhere, `Hx` is scaled away from its junk-polluted row
`i = 0`, and every already-recorded row of the recording array is
scaled. -/
def ScaledInv (a : ℚ) (st1 st2 : RunState) : Prop :=
  st2.cfg = st1.cfg ∧
  (∀ i j, st2.fields.Ez i j = a * st1.fields.Ez i j) ∧
  (∀ i j, st2.fields.Hy i j = a * st1.fields.Hy i j) ∧
  (∀ i j, 1 ≤ i → st2.fields.Hx i j = a * st1.fields.Hx i j) ∧
  (∀ r i j, r < st1.cfg.iteration → i < st1.cfg.nx → j < st1.cfg.ny →
    st2.ezTime r i j = a * st1.ezTime r i j)

/-- Concrete grid holding 37 everywhere: stands for a recognisable
uninitialised-memory pattern in the counterexamples below. -/
def g37 : Grid := fun _ _ => 37

/-- Concrete recording array holding 37 everywhere (pre-run contents). -/
def ez37 : Grid3 := fun _ _ _ => 37

/-- Zeroed junk buffers for every iteration. -/
def JZ : ℕ → Junk := fun _ => ⟨zeroGrid, zeroGrid, zeroGrid, zeroGrid⟩

/-- Constant-one stand-in for an abstracted transcendental function. -/
def oneFn : ℚ → ℚ := fun _ => 1

/-- Vacuum-like concrete mesh: epsilon = 1, mu = 1, everything else 0. -/
def meshUnit : MeshSet :=
  MeshSet.construct oneGrid zeroGrid zeroGrid 1 zeroGrid zeroGrid

/-- Concrete permittivity grid violating invariant I1 (epsilon > 0). -/
def badEpsGrid : Grid := fun _ _ => -1

/-- Concrete mesh built from the invalid permittivity grid. -/
def meshBadEps : MeshSet :=
  MeshSet.construct badEpsGrid zeroGrid zeroGrid 1 zeroGrid zeroGrid

/-- Concrete 2x2 config with a single time stamp 0. -/
def cfg0 : Config := Config.make 1 1 1 2 2 [0]

/-- Concrete 2x2 config with a single time stamp 3. -/
def cfg1 : Config := Config.make 1 1 1 2 2 [3]

/-- Concrete 2x2 config with time stamps [5, 7] (first stamp nonzero). -/
def cfg2 : Config := Config.make 1 1 1 2 2 [5, 7]

/-- Concrete 2x2 config with two time stamps. -/
def cfg3 : Config := Config.make 1 1 1 2 2 [0, 0]

/-- Concrete 3x3 config (has a nonempty strict interior). -/
def cfgW3 : Config := Config.make 1 1 1 3 3 [0]

/-- Concrete impulsion source at cell (0,0) with amplitude 1, duration 1,
delay 0. -/
def srcImp : Source := .impulsion 1 1 0 [(0, 0)]

/-- Concrete impulsion source at cell (0,0) with amplitude 1, duration 1,
delay 5. -/
def srcImp5 : Source := .impulsion 1 1 5 [(0, 0)]

/-- Concrete Ez array with a single 1 at cell (0,1). -/
def EzC1 : Grid := fun i j => if i = 0 ∧ j = 1 then 1 else 0

/-- Concrete field set built from `EzC1` with zero magnetic fields. -/
def fieldsC1 : FieldSet := ⟨EzC1, zeroGrid, zeroGrid⟩

/-- Concrete field set with non-trivial magnetic fields for the
interior-update witness. -/
def fieldsW3 : FieldSet :=
  ⟨fun _ _ => 10, fun i j => 3 * (i : ℚ) + j, fun i j => (i : ℚ) + 5 * j⟩

lemma run_step_cfg (m : MeshSet) (rcos rexp : ℚ → ℚ) (srcs : List Source)
    (jk : Junk) (st : RunState) :
    (run_step m rcos rexp srcs jk st).cfg = st.cfg.next := rfl

lemma runFrom_peel (m : MeshSet) (rcos rexp : ℚ → ℚ) (srcs : List Source)
    (J : ℕ → Junk) (k n : ℕ) (st : RunState) :
    runFrom m rcos rexp srcs J k (n + 1) st =
      runFrom m rcos rexp srcs J (k + 1) n
        (run_step m rcos rexp srcs (J k) st) := rfl

lemma runFrom_add (m : MeshSet) (rcos rexp : ℚ → ℚ) (srcs : List Source)
    (J : ℕ → Junk) :
    ∀ (a b k : ℕ) (st : RunState),
      runFrom m rcos rexp srcs J k (a + b) st =
        runFrom m rcos rexp srcs J (k + a) b
          (runFrom m rcos rexp srcs J k a st) := by
  intro a
  induction a with
  | zero => intro b k st; simp [runFrom]
  | succ a ih =>
      intro b k st
      have h1 : a + 1 + b = (a + b) + 1 := by omega
      rw [h1, runFrom_peel, runFrom_peel, ih]
      have h2 : k + 1 + a = k + (a + 1) := by omega
      rw [h2]

lemma runFrom_succ (m : MeshSet) (rcos rexp : ℚ → ℚ) (srcs : List Source)
    (J : ℕ → Junk) (k n : ℕ) (st : RunState) :
    runFrom m rcos rexp srcs J k (n + 1) st =
      run_step m rcos rexp srcs (J (k + n))
        (runFrom m rcos rexp srcs J k n st) := by
  rw [runFrom_add m rcos rexp srcs J n 1 k st]
  rfl

lemma runFrom_iteration (m : MeshSet) (rcos rexp : ℚ → ℚ)
    (srcs : List Source) (J : ℕ → Junk) :
    ∀ (n k : ℕ) (st : RunState),
      (runFrom m rcos rexp srcs J k n st).cfg.iteration =
        st.cfg.iteration + n := by
  intro n
  induction n with
  | zero => intro k st; rfl
  | succ n ih =>
      intro k st
      rw [runFrom_peel, ih]
      show st.cfg.iteration + 1 + n = st.cfg.iteration + (n + 1)
      omega

lemma runFrom_nx (m : MeshSet) (rcos rexp : ℚ → ℚ) (srcs : List Source)
    (J : ℕ → Junk) :
    ∀ (n k : ℕ) (st : RunState),
      (runFrom m rcos rexp srcs J k n st).cfg.nx = st.cfg.nx := by
  intro n
  induction n with
  | zero => intro k st; rfl
  | succ n ih => intro k st; rw [runFrom_peel, ih]; rfl

lemma runFrom_ny (m : MeshSet) (rcos rexp : ℚ → ℚ) (srcs : List Source)
    (J : ℕ → Junk) :
    ∀ (n k : ℕ) (st : RunState),
      (runFrom m rcos rexp srcs J k n st).cfg.ny = st.cfg.ny := by
  intro n
  induction n with
  | zero => intro k st; rfl
  | succ n ih => intro k st; rw [runFrom_peel, ih]; rfl

lemma runFrom_time_stamp (m : MeshSet) (rcos rexp : ℚ → ℚ)
    (srcs : List Source) (J : ℕ → Junk) :
    ∀ (n k : ℕ) (st : RunState),
      (runFrom m rcos rexp srcs J k n st).cfg.time_stamp =
        st.cfg.time_stamp := by
  intro n
  induction n with
  | zero => intro k st; rfl
  | succ n ih => intro k st; rw [runFrom_peel, ih]; rfl

lemma run_step_ezTime (m : MeshSet) (rcos rexp : ℚ → ℚ)
    (srcs : List Source) (jk : Junk) (st : RunState) (r i j : ℕ) :
    (run_step m rcos rexp srcs jk st).ezTime r i j =
      if r = st.cfg.iteration ∧ i < st.cfg.nx ∧ j < st.cfg.ny then
        (run_step m rcos rexp srcs jk st).fields.Ez i j
      else st.ezTime r i j := rfl

lemma runFrom_ezTime_stable (m : MeshSet) (rcos rexp : ℚ → ℚ)
    (srcs : List Source) (J : ℕ → Junk) :
    ∀ (n k r i j : ℕ) (st : RunState), r < st.cfg.iteration →
      (runFrom m rcos rexp srcs J k n st).ezTime r i j =
        st.ezTime r i j := by
  intro n
  induction n with
  | zero => intro k r i j st _; rfl
  | succ n ih =>
      intro k r i j st hr
      rw [runFrom_peel, ih]
      · rw [run_step_ezTime]
        have : ¬(r = st.cfg.iteration ∧ i < st.cfg.nx ∧ j < st.cfg.ny) := by
          intro h; omega
        simp [this]
      · rw [run_step_cfg]
        show r < st.cfg.iteration + 1
        omega

lemma run_step_fields_Ez (m : MeshSet) (rcos rexp : ℚ → ℚ)
    (srcs : List Source) (jk : Junk) (st : RunState) :
    (run_step m rcos rexp srcs jk st).fields.Ez =
      postInjectionEz m rcos rexp srcs jk st := rfl

lemma run_ezTime_eq (m : MeshSet) (rcos rexp : ℚ → ℚ) (srcs : List Source)
    (J : ℕ → Junk) (c : Config) (ez0 : Grid3) (hc : c.iteration = 0)
    (k i j : ℕ) (hk : k < c.time_stamp.length) (hi : i < c.nx)
    (hj : j < c.ny) :
    (run m rcos rexp srcs J c ez0).ezTime k i j =
      postInjectionEz m rcos rexp srcs (J k)
        (stateAtStep m rcos rexp srcs J c ez0 k) i j := by
  have hlen : c.time_stamp.length = (k + 1) + (c.time_stamp.length - (k + 1)) := by
    omega
  rw [run, hlen, runFrom_add]
  rw [runFrom_ezTime_stable]
  · rw [runFrom_succ]
    rw [run_step_ezTime]
    have hit : (runFrom m rcos rexp srcs J 0 k
        ⟨c, FieldSet.init, ez0⟩).cfg.iteration = k := by
      rw [runFrom_iteration]; simp [hc]
    have hnx : (runFrom m rcos rexp srcs J 0 k
        ⟨c, FieldSet.init, ez0⟩).cfg.nx = c.nx := runFrom_nx _ _ _ _ _ _ _ _
    have hny : (runFrom m rcos rexp srcs J 0 k
        ⟨c, FieldSet.init, ez0⟩).cfg.ny = c.ny := runFrom_ny _ _ _ _ _ _ _ _
    have hcond : k = (runFrom m rcos rexp srcs J 0 k
          ⟨c, FieldSet.init, ez0⟩).cfg.iteration ∧
        i < (runFrom m rcos rexp srcs J 0 k
          ⟨c, FieldSet.init, ez0⟩).cfg.nx ∧
        j < (runFrom m rcos rexp srcs J 0 k
          ⟨c, FieldSet.init, ez0⟩).cfg.ny := by
      refine ⟨hit.symm, ?_, ?_⟩ <;> omega
    rw [if_pos hcond, run_step_fields_Ez]
    simp [stateAtStep]
  · rw [runFrom_succ, run_step_cfg]
    have hit : (runFrom m rcos rexp srcs J 0 k
        ⟨c, FieldSet.init, ez0⟩).cfg.iteration = k := by
      rw [runFrom_iteration]; simp [hc]
    show k < _ + 1
    omega

lemma next_time (c : Config) :
    c.next.time = c.time_stamp.getD (c.iteration + 1) 0 := rfl

lemma runFrom_time (m : MeshSet) (rcos rexp : ℚ → ℚ) (srcs : List Source)
    (J : ℕ → Junk) (n k : ℕ) (st : RunState) :
    (runFrom m rcos rexp srcs J k (n + 1) st).cfg.time =
      st.cfg.time_stamp.getD (st.cfg.iteration + n + 1) 0 := by
  rw [runFrom_succ, run_step_cfg, next_time, runFrom_time_stamp,
    runFrom_iteration]

lemma getD_map_mul (a : ℚ) :
    ∀ (l : List ℚ) (k : ℕ), (l.map fun x => a * x).getD k 0 = a * l.getD k 0 := by
  intro l
  induction l with
  | nil => intro k; simp
  | cons x xs ih =>
      intro k
      cases k with
      | zero => simp
      | succ k => simpa using ih k

lemma foldl_add_scale (a : ℚ) (f : ℕ → ℚ) :
    ∀ (l : List ℕ) (acc : ℚ),
      l.foldl (fun acc k => acc + a * f k) (a * acc) =
        a * l.foldl (fun acc k => acc + f k) acc := by
  intro l
  induction l with
  | nil => intro acc; rfl
  | cons x xs ih =>
      intro acc
      show xs.foldl _ (a * acc + a * f x) = _
      rw [← mul_add, ih]
      rfl

lemma indexes_scaleAmp (a : ℚ) (s : Source) :
    (s.scaleAmp a).indexes = s.indexes := by
  cases s <;> rfl

lemma term_scaleAmp (rcos rexp : ℚ → ℚ) (a t : ℚ) (s : Source) :
    (s.scaleAmp a).term rcos rexp t = a * s.term rcos rexp t := by
  cases s with
  | multiWavelength om am de idx =>
      show (List.range om.length).foldl _ 0 = a * (List.range om.length).foldl _ 0
      have h1 : (fun (acc : ℚ) (k : ℕ) =>
          acc + (am.map fun x => a * x).getD k 0 *
            rcos (om.getD k 0 * t + de.getD k 0)) =
          fun (acc : ℚ) (k : ℕ) =>
            acc + a * (am.getD k 0 * rcos (om.getD k 0 * t + de.getD k 0)) := by
        funext acc k
        rw [getD_map_mul]
        ring
      rw [h1]
      have h2 := foldl_add_scale a
        (fun k => am.getD k 0 * rcos (om.getD k 0 * t + de.getD k 0))
        (List.range om.length) 0
      rw [mul_zero] at h2
      exact h2
  | impulsion A dur del idx =>
      show a * A * _ = a * (A * _)
      ring

lemma inject_fold_scale (a v : ℚ) :
    ∀ (idx : List (ℕ × ℕ)) (E1 E2 : Grid),
      (∀ i j, E2 i j = a * E1 i j) →
      ∀ i j,
        (idx.foldl (fun Ez p => inject_at p.1 p.2 (a * v) Ez) E2) i j =
          a * (idx.foldl (fun Ez p => inject_at p.1 p.2 v Ez) E1) i j := by
  intro idx
  induction idx with
  | nil => intro E1 E2 h i j; exact h i j
  | cons p ps ih =>
      intro E1 E2 h i j
      show (ps.foldl _ (inject_at p.1 p.2 (a * v) E2)) i j = _
      refine ih (inject_at p.1 p.2 v E1) (inject_at p.1 p.2 (a * v) E2) ?_ i j
      intro i j
      unfold inject_at
      by_cases hc : i = p.1 ∧ j = p.2
      · simp only [if_pos hc, h i j]; ring
      · simp only [if_neg hc, h i j]

lemma add_to_field_Hx (rcos rexp : ℚ → ℚ) (c : Config) (s : Source)
    (f : FieldSet) : (add_to_field rcos rexp c s f).Hx = f.Hx := rfl

lemma add_to_field_Hy (rcos rexp : ℚ → ℚ) (c : Config) (s : Source)
    (f : FieldSet) : (add_to_field rcos rexp c s f).Hy = f.Hy := rfl

lemma add_to_field_scale (rcos rexp : ℚ → ℚ) (a : ℚ) (c : Config)
    (s : Source) (f1 f2 : FieldSet)
    (hE : ∀ i j, f2.Ez i j = a * f1.Ez i j) :
    ∀ i j, (add_to_field rcos rexp c (s.scaleAmp a) f2).Ez i j =
      a * (add_to_field rcos rexp c s f1).Ez i j := by
  intro i j
  unfold add_to_field
  simp only [indexes_scaleAmp, term_scaleAmp]
  exact inject_fold_scale a (s.term rcos rexp c.time) s.indexes f1.Ez f2.Ez hE i j

lemma sources_fold_Hx (rcos rexp : ℚ → ℚ) (c : Config) :
    ∀ (srcs : List Source) (f : FieldSet),
      (srcs.foldl (fun f s => add_to_field rcos rexp c s f) f).Hx = f.Hx := by
  intro srcs
  induction srcs with
  | nil => intro f; rfl
  | cons s ss ih => intro f; rw [List.foldl_cons, ih, add_to_field_Hx]

lemma sources_fold_Hy (rcos rexp : ℚ → ℚ) (c : Config) :
    ∀ (srcs : List Source) (f : FieldSet),
      (srcs.foldl (fun f s => add_to_field rcos rexp c s f) f).Hy = f.Hy := by
  intro srcs
  induction srcs with
  | nil => intro f; rfl
  | cons s ss ih => intro f; rw [List.foldl_cons, ih, add_to_field_Hy]

lemma sources_fold_scale (rcos rexp : ℚ → ℚ) (a : ℚ) (c : Config) :
    ∀ (srcs : List Source) (f1 f2 : FieldSet),
      (∀ i j, f2.Ez i j = a * f1.Ez i j) →
      ∀ i j,
        ((srcs.map (Source.scaleAmp a)).foldl
          (fun f s => add_to_field rcos rexp c s f) f2).Ez i j =
        a * (srcs.foldl (fun f s => add_to_field rcos rexp c s f) f1).Ez i j := by
  intro srcs
  induction srcs with
  | nil => intro f1 f2 h i j; exact h i j
  | cons s ss ih =>
      intro f1 f2 h i j
      rw [List.map_cons, List.foldl_cons, List.foldl_cons]
      exact ih (add_to_field rcos rexp c s f1)
        (add_to_field rcos rexp c (s.scaleAmp a) f2)
        (add_to_field_scale rcos rexp a c s f1 f2 h) i j

lemma umf_Ez (c : Config) (m : MeshSet) (jdx jdy : Grid) (f : FieldSet) :
    (update_magnetic_fields c m jdx jdy f).Ez = f.Ez := rfl

lemma umf_Hy_scale (c : Config) (m : MeshSet) (a : ℚ)
    (jdx1 jdy1 jdx2 jdy2 : Grid) (f1 f2 : FieldSet)
    (hE : ∀ i j, f2.Ez i j = a * f1.Ez i j)
    (hHy : ∀ i j, f2.Hy i j = a * f1.Hy i j) :
    ∀ i j, (update_magnetic_fields c m jdx2 jdy2 f2).Hy i j =
      a * (update_magnetic_fields c m jdx1 jdy1 f1).Hy i j := by
  intro i j
  show (if i < c.nx - 1 ∧ j < c.ny then _ else _) =
    a * (if i < c.nx - 1 ∧ j < c.ny then _ else _)
  by_cases hc : i < c.nx - 1 ∧ j < c.ny
  · rw [if_pos hc, if_pos hc]
    unfold dEz_dx
    rw [if_pos hc, if_pos hc]
    simp only [hE, hHy]
    ring
  · rw [if_neg hc, if_neg hc]
    exact hHy i j

lemma umf_Hx_scale (c : Config) (m : MeshSet) (a : ℚ)
    (jdx1 jdy1 jdx2 jdy2 : Grid) (f1 f2 : FieldSet)
    (hE : ∀ i j, f2.Ez i j = a * f1.Ez i j)
    (hHx : ∀ i j, 1 ≤ i → f2.Hx i j = a * f1.Hx i j) :
    ∀ i j, 1 ≤ i → (update_magnetic_fields c m jdx2 jdy2 f2).Hx i j =
      a * (update_magnetic_fields c m jdx1 jdy1 f1).Hx i j := by
  intro i j hi1
  show (if i < c.nx ∧ j < c.ny - 1 then _ else _) =
    a * (if i < c.nx ∧ j < c.ny - 1 then _ else _)
  by_cases hc : i < c.nx ∧ j < c.ny - 1
  · rw [if_pos hc, if_pos hc]
    unfold dEz_dy
    rw [if_pos ⟨hi1, hc.1, hc.2⟩, if_pos ⟨hi1, hc.1, hc.2⟩]
    simp only [hE, hHx i j hi1]
    ring
  · rw [if_neg hc, if_neg hc]
    exact hHx i j hi1

lemma uef_Hx (c : Config) (m : MeshSet) (jyx jxy : Grid) (f : FieldSet) :
    (update_electric_field c m jyx jxy f).Hx = f.Hx := rfl

lemma uef_Hy (c : Config) (m : MeshSet) (jyx jxy : Grid) (f : FieldSet) :
    (update_electric_field c m jyx jxy f).Hy = f.Hy := rfl

lemma uef_Ez_scale (c : Config) (m : MeshSet) (a : ℚ)
    (jyx1 jxy1 jyx2 jxy2 : Grid) (f1 f2 : FieldSet)
    (hE : ∀ i j, f2.Ez i j = a * f1.Ez i j)
    (hHy : ∀ i j, f2.Hy i j = a * f1.Hy i j)
    (hHx : ∀ i j, 1 ≤ i → f2.Hx i j = a * f1.Hx i j) :
    ∀ i j, (update_electric_field c m jyx2 jxy2 f2).Ez i j =
      a * (update_electric_field c m jyx1 jxy1 f1).Ez i j := by
  intro i j
  show (if 1 ≤ i ∧ i < c.nx - 1 ∧ 1 ≤ j ∧ j < c.ny - 1 then _ else _) =
    a * (if 1 ≤ i ∧ i < c.nx - 1 ∧ 1 ≤ j ∧ j < c.ny - 1 then _ else _)
  by_cases hc : 1 ≤ i ∧ i < c.nx - 1 ∧ 1 ≤ j ∧ j < c.ny - 1
  · rw [if_pos hc, if_pos hc]
    unfold dHy_dx dHx_dy
    rw [if_pos hc, if_pos hc, if_pos hc, if_pos hc]
    simp only [hE, hHy, hHx i j hc.1, hHx i (j - 1) hc.1]
    ring
  · rw [if_neg hc, if_neg hc]
    exact hE i j

lemma shg_Hx (c : Config) (m : MeshSet) (f : FieldSet) :
    (apply_second_harmonic_generation c m f).Hx = f.Hx := rfl

lemma shg_Hy (c : Config) (m : MeshSet) (f : FieldSet) :
    (apply_second_harmonic_generation c m f).Hy = f.Hy := rfl

lemma shg_gamma_zero (c : Config) (m : MeshSet) (hg : m.gamma = zeroGrid)
    (f : FieldSet) : ∀ i j,
      (apply_second_harmonic_generation c m f).Ez i j = f.Ez i j := by
  intro i j
  show (if i < c.nx ∧ j < c.ny then _ else _) = _
  by_cases hc : i < c.nx ∧ j < c.ny
  · rw [if_pos hc, hg]
    show f.Ez i j + zeroGrid i j * _ * _ = f.Ez i j
    show f.Ez i j + 0 * _ * _ = f.Ez i j
    ring
  · rw [if_neg hc]

lemma absorption_Hx (c : Config) (m : MeshSet) (f : FieldSet) :
    (apply_absorption c m f).Hx = f.Hx := rfl

lemma absorption_Hy (c : Config) (m : MeshSet) (f : FieldSet) :
    (apply_absorption c m f).Hy = f.Hy := rfl

lemma absorption_Ez_scale (c : Config) (m : MeshSet) (a : ℚ)
    (f1 f2 : FieldSet) (hE : ∀ i j, f2.Ez i j = a * f1.Ez i j) :
    ∀ i j, (apply_absorption c m f2).Ez i j =
      a * (apply_absorption c m f1).Ez i j := by
  intro i j
  show (if i < c.nx ∧ j < c.ny then _ else _) =
    a * (if i < c.nx ∧ j < c.ny then _ else _)
  by_cases hc : i < c.nx ∧ j < c.ny
  · rw [if_pos hc, if_pos hc, hE]
    ring
  · rw [if_neg hc, if_neg hc]
    exact hE i j

lemma run_step_fields (m : MeshSet) (rcos rexp : ℚ → ℚ)
    (srcs : List Source) (jk : Junk) (st : RunState) :
    (run_step m rcos rexp srcs jk st).fields =
      srcs.foldl (fun f s => add_to_field rcos rexp st.cfg s f)
        (apply_absorption st.cfg m
          (apply_second_harmonic_generation st.cfg m
            (update_electric_field st.cfg m jk.jyx jk.jxy
              (update_magnetic_fields st.cfg m jk.jdx jk.jdy st.fields)))) := rfl

lemma run_step_scaled (m : MeshSet) (hg : m.gamma = zeroGrid)
    (rcos rexp : ℚ → ℚ) (a : ℚ) (srcs : List Source) (jk1 jk2 : Junk)
    (st1 st2 : RunState) (h : ScaledInv a st1 st2) :
    ScaledInv a (run_step m rcos rexp srcs jk1 st1)
      (run_step m rcos rexp (srcs.map (Source.scaleAmp a)) jk2 st2) := by
  obtain ⟨hcfg, hE, hHy, hHx, hrec⟩ := h
  have hE1 : ∀ i j,
      (update_magnetic_fields st1.cfg m jk2.jdx jk2.jdy st2.fields).Ez i j =
      a * (update_magnetic_fields st1.cfg m jk1.jdx jk1.jdy st1.fields).Ez i j := by
    intro i j
    rw [umf_Ez, umf_Ez]
    exact hE i j
  have hHy1 := umf_Hy_scale st1.cfg m a jk1.jdx jk1.jdy jk2.jdx jk2.jdy
    st1.fields st2.fields hE hHy
  have hHx1 := umf_Hx_scale st1.cfg m a jk1.jdx jk1.jdy jk2.jdx jk2.jdy
    st1.fields st2.fields hE hHx
  have hE2 := uef_Ez_scale st1.cfg m a jk1.jyx jk1.jxy jk2.jyx jk2.jxy
    (update_magnetic_fields st1.cfg m jk1.jdx jk1.jdy st1.fields)
    (update_magnetic_fields st1.cfg m jk2.jdx jk2.jdy st2.fields) hE1 hHy1 hHx1
  have hE3 : ∀ i j,
      (apply_second_harmonic_generation st1.cfg m
        (update_electric_field st1.cfg m jk2.jyx jk2.jxy
          (update_magnetic_fields st1.cfg m jk2.jdx jk2.jdy st2.fields))).Ez i j =
      a * (apply_second_harmonic_generation st1.cfg m
        (update_electric_field st1.cfg m jk1.jyx jk1.jxy
          (update_magnetic_fields st1.cfg m jk1.jdx jk1.jdy st1.fields))).Ez i j := by
    intro i j
    rw [shg_gamma_zero st1.cfg m hg, shg_gamma_zero st1.cfg m hg]
    exact hE2 i j
  have hE4 := absorption_Ez_scale st1.cfg m a
    (apply_second_harmonic_generation st1.cfg m
      (update_electric_field st1.cfg m jk1.jyx jk1.jxy
        (update_magnetic_fields st1.cfg m jk1.jdx jk1.jdy st1.fields)))
    (apply_second_harmonic_generation st1.cfg m
      (update_electric_field st1.cfg m jk2.jyx jk2.jxy
        (update_magnetic_fields st1.cfg m jk2.jdx jk2.jdy st2.fields))) hE3
  have hE5 := sources_fold_scale rcos rexp a st1.cfg srcs
    (apply_absorption st1.cfg m
      (apply_second_harmonic_generation st1.cfg m
        (update_electric_field st1.cfg m jk1.jyx jk1.jxy
          (update_magnetic_fields st1.cfg m jk1.jdx jk1.jdy st1.fields))))
    (apply_absorption st1.cfg m
      (apply_second_harmonic_generation st1.cfg m
        (update_electric_field st1.cfg m jk2.jyx jk2.jxy
          (update_magnetic_fields st1.cfg m jk2.jdx jk2.jdy st2.fields)))) hE4
  have hfields1 := run_step_fields m rcos rexp srcs jk1 st1
  have hfields2 := run_step_fields m rcos rexp (srcs.map (Source.scaleAmp a))
    jk2 st2
  rw [hcfg] at hfields2
  refine ⟨?_, ?_, ?_, ?_, ?_⟩
  · rw [run_step_cfg, run_step_cfg, hcfg]
  · intro i j
    rw [hfields1, hfields2]
    exact hE5 i j
  · intro i j
    rw [hfields1, hfields2, sources_fold_Hy, sources_fold_Hy, absorption_Hy,
      absorption_Hy, shg_Hy, shg_Hy, uef_Hy, uef_Hy]
    exact hHy1 i j
  · intro i j hi1
    rw [hfields1, hfields2, sources_fold_Hx, sources_fold_Hx, absorption_Hx,
      absorption_Hx, shg_Hx, shg_Hx, uef_Hx, uef_Hx]
    exact hHx1 i j hi1
  · intro r i j hr hi hj
    have hr1 : r < st1.cfg.iteration + 1 := hr
    have hi1 : i < st1.cfg.nx := hi
    have hj1 : j < st1.cfg.ny := hj
    rw [run_step_ezTime, run_step_ezTime, hfields1, hfields2, hcfg]
    by_cases hc : r = st1.cfg.iteration
    · rw [if_pos ⟨hc, hi1, hj1⟩, if_pos ⟨hc, hi1, hj1⟩]
      exact hE5 i j
    · have hcond : ¬(r = st1.cfg.iteration ∧ i < st1.cfg.nx ∧ j < st1.cfg.ny) := by
        intro hx; exact hc hx.1
      rw [if_neg hcond, if_neg hcond]
      exact hrec r i j (by omega) hi1 hj1

lemma runFrom_scaled (m : MeshSet) (hg : m.gamma = zeroGrid)
    (rcos rexp : ℚ → ℚ) (a : ℚ) (srcs : List Source) (J1 J2 : ℕ → Junk) :
    ∀ (n k1 k2 : ℕ) (st1 st2 : RunState), ScaledInv a st1 st2 →
      ScaledInv a (runFrom m rcos rexp srcs J1 k1 n st1)
        (runFrom m rcos rexp (srcs.map (Source.scaleAmp a)) J2 k2 n st2) := by
  intro n
  induction n with
  | zero => intro k1 k2 st1 st2 h; exact h
  | succ n ih =>
      intro k1 k2 st1 st2 h
      rw [runFrom_peel, runFrom_peel]
      exact ih (k1 + 1) (k2 + 1) _ _
        (run_step_scaled m hg rcos rexp a srcs (J1 k1) (J2 k2) st1 st2 h)

lemma run_step_n2 (m : MeshSet) (g : Grid) (rcos rexp : ℚ → ℚ)
    (srcs : List Source) (jk : Junk) (st : RunState) :
    run_step { m with n2 := g } rcos rexp srcs jk st =
      run_step m rcos rexp srcs jk st := rfl

lemma runFrom_n2 (m : MeshSet) (g : Grid) (rcos rexp : ℚ → ℚ)
    (srcs : List Source) (J : ℕ → Junk) :
    ∀ (n k : ℕ) (st : RunState),
      runFrom { m with n2 := g } rcos rexp srcs J k n st =
        runFrom m rcos rexp srcs J k n st := by
  intro n
  induction n with
  | zero => intro k st; rfl
  | succ n ih =>
      intro k st
      rw [runFrom_peel, runFrom_peel, run_step_n2, ih]

lemma run_iteration (m : MeshSet) (rcos rexp : ℚ → ℚ) (srcs : List Source)
    (J : ℕ → Junk) (dx dy dt : ℚ) (nx ny : ℕ) (ts : List ℚ) (ez0 : Grid3) :
    (run m rcos rexp srcs J (Config.make dx dy dt nx ny ts) ez0).cfg.iteration
      = ts.length := by
  rw [run, runFrom_iteration]
  show 0 + ts.length = ts.length
  omega

/-- C1: the claim states that the magnetic-field update computes
dEz/dy(i,j) = (Ez(i,j+1) - Ez(i,j))/dy for every i in [0,nx) and that
every Hx(i,j) receives a well-defined increment built from it.  In the
code the dEz/dy loop starts at i = 1, so row i = 0 of the buffer is
never written: at nx = ny = 2 with uninitialised contents 37, the value
dEz_dy(0,0) read by the Hx update is the junk 37 and not the claimed
finite difference 1, and Hx(0,0) receives the junk-based increment -37
instead of the claimed -1. -/
theorem C1_dEz_dy_uninitialized_row :
    dEz_dy cfg0 g37 EzC1 0 0 = 37 ∧
    (EzC1 0 1 - EzC1 0 0) / cfg0.dy = 1 ∧
    (update_magnetic_fields cfg0 meshUnit zeroGrid g37 fieldsC1).Hx 0 0 = -37 := by
  refine ⟨?_, ?_, ?_⟩ <;>
    norm_num [dEz_dy, update_magnetic_fields, cfg0, g37, EzC1, fieldsC1,
      meshUnit, Config.make, MeshSet.construct, zeroGrid, oneGrid]

/-- C2: for every iteration k of the run loop, the recorded slice
Ez_time[k,:,:] equals the value of Ez immediately after the source
injections of iteration k (recording happens after the H-update,
E-update, SHG, absorption and injection sub-steps of that iteration and
before the time advance). -/
theorem C2_recording_consistency (m : MeshSet) (rcos rexp : ℚ → ℚ)
    (srcs : List Source) (J : ℕ → Junk) (dx dy dt : ℚ) (nx ny : ℕ)
    (ts : List ℚ) (ez0 : Grid3) (k i j : ℕ) (hk : k < ts.length)
    (hi : i < nx) (hj : j < ny) :
    (run m rcos rexp srcs J (Config.make dx dy dt nx ny ts) ez0).ezTime k i j =
      postInjectionEz m rcos rexp srcs (J k)
        (stateAtStep m rcos rexp srcs J (Config.make dx dy dt nx ny ts) ez0 k)
        i j :=
  run_ezTime_eq m rcos rexp srcs J (Config.make dx dy dt nx ny ts) ez0 rfl
    k i j hk hi hj

/-- Witness for C2 on a concrete one-step run. -/
theorem C2_recording_consistency_witness :
    0 < (1 : ℕ) ∧
    (run meshUnit oneFn oneFn [srcImp] JZ cfg0 ez37).ezTime 0 0 0 =
      postInjectionEz meshUnit oneFn oneFn [srcImp] (JZ 0)
        (stateAtStep meshUnit oneFn oneFn [srcImp] JZ cfg0 ez37 0) 0 0 :=
  ⟨by norm_num,
    C2_recording_consistency meshUnit oneFn oneFn [srcImp] JZ 1 1 1 2 2 [0]
      ez37 0 0 0 (by norm_num) (by norm_num) (by norm_num)⟩

/-- C3: the electric-field update adds
(dt/eps(i,j)) * ((Hy(i,j)-Hy(i-1,j))/dx - (Hx(i,j)-Hx(i,j-1))/dy) to
Ez(i,j) exactly on the strict interior i in [1,nx-1), j in [1,ny-1),
and leaves Ez unchanged at every boundary cell (i = 0, i = nx-1, j = 0
or j = ny-1). -/
theorem C3_electric_update_interior (c : Config) (m : MeshSet)
    (jyx jxy : Grid) (f : FieldSet) (i j : ℕ) :
    ((1 ≤ i ∧ i < c.nx - 1 ∧ 1 ≤ j ∧ j < c.ny - 1) →
      (update_electric_field c m jyx jxy f).Ez i j =
        f.Ez i j + c.dt / m.epsilon i j *
          ((f.Hy i j - f.Hy (i - 1) j) / c.dx -
            (f.Hx i j - f.Hx i (j - 1)) / c.dy)) ∧
    ((i = 0 ∨ i = c.nx - 1 ∨ j = 0 ∨ j = c.ny - 1) →
      (update_electric_field c m jyx jxy f).Ez i j = f.Ez i j) := by
  constructor
  · intro hc
    show (if 1 ≤ i ∧ i < c.nx - 1 ∧ 1 ≤ j ∧ j < c.ny - 1 then _ else _) = _
    rw [if_pos hc]
    unfold dHy_dx dHx_dy
    rw [if_pos hc, if_pos hc]
  · intro hb
    show (if 1 ≤ i ∧ i < c.nx - 1 ∧ 1 ≤ j ∧ j < c.ny - 1 then _ else _) = _
    have hnc : ¬(1 ≤ i ∧ i < c.nx - 1 ∧ 1 ≤ j ∧ j < c.ny - 1) := by
      rcases hb with h | h | h | h <;> omega
    rw [if_neg hnc]

/-- Witness for C3 on a concrete 3x3 grid: the interior cell (1,1) gets
the stencil increment and the boundary cell (0,2) is untouched. -/
theorem C3_electric_update_interior_witness :
    ((1 ≤ 1 ∧ 1 < cfgW3.nx - 1 ∧ 1 ≤ 1 ∧ 1 < cfgW3.ny - 1) ∧
      (update_electric_field cfgW3 meshUnit zeroGrid zeroGrid fieldsW3).Ez 1 1 =
        fieldsW3.Ez 1 1 + cfgW3.dt / meshUnit.epsilon 1 1 *
          ((fieldsW3.Hy 1 1 - fieldsW3.Hy (1 - 1) 1) / cfgW3.dx -
            (fieldsW3.Hx 1 1 - fieldsW3.Hx 1 (1 - 1)) / cfgW3.dy)) ∧
    ((0 = 0 ∨ 0 = cfgW3.nx - 1 ∨ (2 : ℕ) = 0 ∨ 2 = cfgW3.ny - 1) ∧
      (update_electric_field cfgW3 meshUnit zeroGrid zeroGrid fieldsW3).Ez 0 2 =
        fieldsW3.Ez 0 2) :=
  ⟨⟨by norm_num [cfgW3, Config.make],
    (C3_electric_update_interior cfgW3 meshUnit zeroGrid zeroGrid fieldsW3 1 1).1
      (by norm_num [cfgW3, Config.make])⟩,
   ⟨by norm_num,
    (C3_electric_update_interior cfgW3 meshUnit zeroGrid zeroGrid fieldsW3 0 2).2
      (by norm_num)⟩⟩

/-- C4: the claim states the time advance is not invoked on the last
iteration and that an advance past the last index of time_stamps aborts.
In the code `run` calls `config.next()` unconditionally after every
iteration including the last, and `Config::next` reads
time_stamp[iteration] with no bounds check: after a complete one-step
run over time_stamps = [3] the iteration counter equals N_steps = 1 (so
`next` ran on the last iteration) and the final `time` is the model's
out-of-bounds default 0, which is not an element of [3]. -/
theorem C4_advance_past_end :
    (run meshUnit oneFn oneFn [] JZ cfg1 ez37).cfg.iteration =
      cfg1.time_stamp.length ∧
    (run meshUnit oneFn oneFn [] JZ cfg1 ez37).cfg.time = 0 ∧
    cfg1.time_stamp = [3] := by
  refine ⟨?_, ?_, rfl⟩
  · exact run_iteration meshUnit oneFn oneFn [] JZ 1 1 1 2 2 [3] ez37
  · norm_num [run, runFrom, run_step, cfg1, Config.make, Config.next]

/-- C5 counterexample: with time_stamps = [5, 7] the state at iteration 0
has config.time = 0 while time_stamps[0] = 5, so the claimed invariant
config.time = time_stamps[iteration] fails at the first injection: an
impulsion with delay 5 (modelled with the identity standing for exp)
contributes its time-0 value -25, not the time-5 value 0, and the
recorded Ez_time[0,0,0] is -25. -/
theorem C5_initial_time_counterexample :
    (stateAtStep meshUnit id id [srcImp5] JZ cfg2 ez37 0).cfg.time = 0 ∧
    cfg2.time_stamp.getD 0 0 = 5 ∧
    (stateAtStep meshUnit id id [srcImp5] JZ cfg2 ez37 0).cfg.time ≠
      cfg2.time_stamp.getD 0 0 ∧
    Source.term id id
      ((stateAtStep meshUnit id id [srcImp5] JZ cfg2 ez37 0).cfg.time)
      srcImp5 = -25 ∧
    Source.term id id (cfg2.time_stamp.getD 0 0) srcImp5 = 0 ∧
    (run meshUnit id id [srcImp5] JZ cfg2 ez37).ezTime 0 0 0 = -25 ∧
    ((-25 : ℚ) ≠ 0) := by
  refine ⟨rfl, rfl, by norm_num [stateAtStep, runFrom, cfg2, Config.make],
    ?_, ?_, ?_, by norm_num⟩
  · norm_num [Source.term, srcImp5, stateAtStep, runFrom, cfg2, Config.make]
  · norm_num [Source.term, srcImp5, cfg2, Config.make]
  · norm_num [run, runFrom, run_step, update_field, update_magnetic_fields,
      update_electric_field, apply_second_harmonic_generation,
      apply_absorption, add_to_field, inject_at, Source.term, Source.indexes,
      clamp01, cfg2, meshUnit, JZ, srcImp5, zeroGrid, oneGrid, ez37,
      Config.make, Config.next, MeshSet.construct, FieldSet.init, dEz_dx,
      dEz_dy, dHy_dx, dHx_dy]

/-- C5 amended: at every iteration k with 1 <= k the injections see
config.time = time_stamps[k], but at iteration 0 config.time is the
constructor's initial 0 (not time_stamps[0]). -/
theorem C5_time_invariant_amended (m : MeshSet) (rcos rexp : ℚ → ℚ)
    (srcs : List Source) (J : ℕ → Junk) (dx dy dt : ℚ) (nx ny : ℕ)
    (ts : List ℚ) (ez0 : Grid3) (k : ℕ) (hk1 : 1 ≤ k) :
    (stateAtStep m rcos rexp srcs J (Config.make dx dy dt nx ny ts) ez0
      k).cfg.time = ts.getD k 0 ∧
    (stateAtStep m rcos rexp srcs J (Config.make dx dy dt nx ny ts) ez0
      0).cfg.time = 0 := by
  constructor
  · obtain ⟨n, rfl⟩ : ∃ n, k = n + 1 := ⟨k - 1, by omega⟩
    rw [stateAtStep, runFrom_time]
    show ts.getD (0 + n + 1) 0 = ts.getD (n + 1) 0
    norm_num
  · rfl

/-- Witness for the amended C5 at iteration 1 of a concrete run. -/
theorem C5_time_invariant_amended_witness :
    1 ≤ (1 : ℕ) ∧
    ((stateAtStep meshUnit id id [srcImp5] JZ cfg2 ez37 1).cfg.time =
        [(5 : ℚ), 7].getD 1 0 ∧
      (stateAtStep meshUnit id id [srcImp5] JZ cfg2 ez37 0).cfg.time = 0) :=
  ⟨by norm_num,
    C5_time_invariant_amended meshUnit id id [srcImp5] JZ 1 1 1 2 2 [5, 7]
      ez37 1 (by norm_num)⟩

/-- C6 counterexample: the claim states MeshSet construction rejects
epsilon <= 0 and that such a mesh is never used for stepping.  The
constructor accepts a mesh with epsilon = -1 everywhere, and a run over
it completes a full iteration, overwriting recording row 0 (previous
contents 37 become 0): the invalid mesh is both constructed and
stepped. -/
theorem C6_construct_counterexample :
    (MeshSet.construct badEpsGrid zeroGrid zeroGrid 1 zeroGrid
      zeroGrid).epsilon 0 0 ≤ 0 ∧
    (run meshBadEps oneFn oneFn [] JZ cfg0 ez37).cfg.iteration = 1 ∧
    (run meshBadEps oneFn oneFn [] JZ cfg0 ez37).ezTime 0 0 0 = 0 ∧
    ez37 0 0 0 = 37 := by
  refine ⟨by norm_num [MeshSet.construct, badEpsGrid], ?_, ?_, rfl⟩
  · exact run_iteration meshBadEps oneFn oneFn [] JZ 1 1 1 2 2 [0] ez37
  · norm_num [run, runFrom, run_step, update_field, update_magnetic_fields,
      update_electric_field, apply_second_harmonic_generation,
      apply_absorption, clamp01, cfg0, meshBadEps, badEpsGrid, JZ, zeroGrid,
      oneGrid, ez37, Config.make, Config.next, MeshSet.construct,
      FieldSet.init, dEz_dx, dEz_dy, dHy_dx, dHx_dy]

/-- C6 amended: MeshSet construction performs no validation — the
constructor stores the material arrays exactly as given, even when some
epsilon(i,j) <= 0 violates invariant I1, and the run steps through all
iterations with such a mesh. -/
theorem C6_no_validation_amended (e n g sx sy : Grid) (mu : ℚ)
    (rcos rexp : ℚ → ℚ) (srcs : List Source) (J : ℕ → Junk) (dx dy dt : ℚ)
    (nx ny : ℕ) (ts : List ℚ) (ez0 : Grid3) (hbad : e 0 0 ≤ 0) :
    (MeshSet.construct e n g mu sx sy).epsilon = e ∧
    (run (MeshSet.construct e n g mu sx sy) rcos rexp srcs J
      (Config.make dx dy dt nx ny ts) ez0).cfg.iteration = ts.length :=
  ⟨rfl, run_iteration (MeshSet.construct e n g mu sx sy) rcos rexp srcs J
    dx dy dt nx ny ts ez0⟩

/-- Witness for the amended C6 with the concrete invalid mesh. -/
theorem C6_no_validation_amended_witness :
    badEpsGrid 0 0 ≤ 0 ∧
    ((MeshSet.construct badEpsGrid zeroGrid zeroGrid 1 zeroGrid
        zeroGrid).epsilon = badEpsGrid ∧
      (run (MeshSet.construct badEpsGrid zeroGrid zeroGrid 1 zeroGrid
        zeroGrid) oneFn oneFn [] JZ (Config.make 1 1 1 2 2 [0])
        ez37).cfg.iteration = [(0 : ℚ)].length) :=
  ⟨by norm_num [badEpsGrid],
    C6_no_validation_amended badEpsGrid zeroGrid zeroGrid zeroGrid zeroGrid 1
      oneFn oneFn [] JZ 1 1 1 2 2 [0] ez37 (by norm_num [badEpsGrid])⟩

/-- C7 counterexample: the claim states a run whose recording array has
shape (N_steps-1, nx, ny) fails with ShapeMismatch before any step,
leaving the field state untouched.  With N_steps = 2 (so a conforming
deficient array would have 1 row), the run executes both iterations,
mutates the fields (Ez(0,0) reaches 2) and overwrites recording row 1 —
the row beyond the deficient array's bounds (previous contents 37) —
with no failure of any kind. -/
theorem C7_shape_counterexample :
    (run meshUnit oneFn oneFn [srcImp] JZ cfg3 ez37).cfg.iteration = 2 ∧
    (run meshUnit oneFn oneFn [srcImp] JZ cfg3 ez37).ezTime 1 0 0 = 2 ∧
    (run meshUnit oneFn oneFn [srcImp] JZ cfg3 ez37).fields.Ez 0 0 = 2 ∧
    ez37 1 0 0 = 37 := by
  refine ⟨?_, ?_, ?_, rfl⟩
  · exact run_iteration meshUnit oneFn oneFn [srcImp] JZ 1 1 1 2 2 [0, 0] ez37
  all_goals
    norm_num [run, runFrom, run_step, update_field, update_magnetic_fields,
      update_electric_field, apply_second_harmonic_generation,
      apply_absorption, add_to_field, inject_at, Source.term, Source.indexes,
      clamp01, cfg3, meshUnit, JZ, srcImp, zeroGrid, oneGrid, ez37,
      Config.make, Config.next, MeshSet.construct, FieldSet.init, dEz_dx,
      dEz_dy, dHy_dx, dHx_dy, oneFn]

/-- C7 amended: `run` performs no shape validation and raises no error —
for a run of T + 1 steps it executes all T + 1 iterations and
unconditionally writes recording rows 0..T, so row T (the row beyond a
deficient (T, nx, ny) array) is written with the step-T field. -/
theorem C7_run_unvalidated_amended (m : MeshSet) (rcos rexp : ℚ → ℚ)
    (srcs : List Source) (J : ℕ → Junk) (dx dy dt : ℚ) (nx ny : ℕ)
    (ts : List ℚ) (ez0 : Grid3) (T i j : ℕ) (hT : ts.length = T + 1)
    (hi : i < nx) (hj : j < ny) :
    (run m rcos rexp srcs J (Config.make dx dy dt nx ny ts) ez0).cfg.iteration
      = T + 1 ∧
    (run m rcos rexp srcs J (Config.make dx dy dt nx ny ts) ez0).ezTime T i j =
      postInjectionEz m rcos rexp srcs (J T)
        (stateAtStep m rcos rexp srcs J (Config.make dx dy dt nx ny ts) ez0 T)
        i j := by
  constructor
  · rw [run_iteration]
    exact hT
  · exact run_ezTime_eq m rcos rexp srcs J (Config.make dx dy dt nx ny ts)
      ez0 rfl T i j (by show T < ts.length; omega) hi hj

/-- Witness for the amended C7 on the concrete two-step run. -/
theorem C7_run_unvalidated_amended_witness :
    ([(0 : ℚ), 0].length = 1 + 1) ∧
    ((run meshUnit oneFn oneFn [srcImp] JZ cfg3 ez37).cfg.iteration = 1 + 1 ∧
      (run meshUnit oneFn oneFn [srcImp] JZ cfg3 ez37).ezTime 1 0 0 =
        postInjectionEz meshUnit oneFn oneFn [srcImp] (JZ 1)
          (stateAtStep meshUnit oneFn oneFn [srcImp] JZ cfg3 ez37 1) 0 0) :=
  ⟨by norm_num,
    C7_run_unvalidated_amended meshUnit oneFn oneFn [srcImp] JZ 1 1 1 2 2
      [0, 0] ez37 1 0 0 (by norm_num) (by norm_num) (by norm_num)⟩

/-- C8: for every cell (i,j) with i < nx, j < ny the absorption sub-step
multiplies Ez(i,j) by clamp(1 - (sigma_x+sigma_y) * dt/(2*eps), 0, 1);
consequently it never increases the absolute value of Ez(i,j) and never
flips its sign. -/
theorem C8_absorption_clamp (c : Config) (m : MeshSet) (f : FieldSet)
    (i j : ℕ) (hi : i < c.nx) (hj : j < c.ny) :
    (apply_absorption c m f).Ez i j =
      f.Ez i j * clamp01 (1 - (m.sigma_x i j + m.sigma_y i j) *
        (c.dt / m.epsilon i j) / 2) ∧
    |(apply_absorption c m f).Ez i j| ≤ |f.Ez i j| ∧
    0 ≤ (apply_absorption c m f).Ez i j * f.Ez i j := by
  have h1 : (apply_absorption c m f).Ez i j =
      f.Ez i j * clamp01 (1 - (m.sigma_x i j + m.sigma_y i j) *
        (c.dt / m.epsilon i j) / 2) := by
    show (if i < c.nx ∧ j < c.ny then _ else _) = _
    rw [if_pos ⟨hi, hj⟩]
  have h0 : 0 ≤ clamp01 (1 - (m.sigma_x i j + m.sigma_y i j) *
      (c.dt / m.epsilon i j) / 2) :=
    le_min (le_max_right _ _) zero_le_one
  have hle1 : clamp01 (1 - (m.sigma_x i j + m.sigma_y i j) *
      (c.dt / m.epsilon i j) / 2) ≤ 1 := min_le_right _ _
  refine ⟨h1, ?_, ?_⟩
  · rw [h1, abs_mul, abs_of_nonneg h0]
    calc |f.Ez i j| * clamp01 (1 - (m.sigma_x i j + m.sigma_y i j) *
          (c.dt / m.epsilon i j) / 2)
        ≤ |f.Ez i j| * 1 := by
          exact mul_le_mul_of_nonneg_left hle1 (abs_nonneg _)
      _ = |f.Ez i j| := mul_one _
  · rw [h1]
    nlinarith [mul_self_nonneg (f.Ez i j), h0]

/-- Witness for C8 at the concrete cell (0,0) of a 2x2 vacuum mesh. -/
theorem C8_absorption_clamp_witness :
    (0 < cfg0.nx ∧ 0 < cfg0.ny) ∧
    ((apply_absorption cfg0 meshUnit fieldsC1).Ez 0 0 =
        fieldsC1.Ez 0 0 * clamp01 (1 - (meshUnit.sigma_x 0 0 +
          meshUnit.sigma_y 0 0) * (cfg0.dt / meshUnit.epsilon 0 0) / 2) ∧
      |(apply_absorption cfg0 meshUnit fieldsC1).Ez 0 0| ≤
        |fieldsC1.Ez 0 0| ∧
      0 ≤ (apply_absorption cfg0 meshUnit fieldsC1).Ez 0 0 *
        fieldsC1.Ez 0 0) :=
  ⟨by norm_num [cfg0, Config.make],
    C8_absorption_clamp cfg0 meshUnit fieldsC1 0 0
      (by norm_num [cfg0, Config.make]) (by norm_num [cfg0, Config.make])⟩

/-- C9: in the linear regime (gamma identically 0 and n2 identically 0,
exact arithmetic) the run is linear in the source amplitudes: scaling
every source amplitude by a scales every recorded sample
Ez_time[k,i,j] by exactly a, for arbitrary (even differing)
uninitialised gradient-buffer contents and initial recording-array
contents in the two runs. -/
theorem C9_linearity (m : MeshSet) (hg : m.gamma = zeroGrid)
    (hn2 : m.n2 = zeroGrid) (rcos rexp : ℚ → ℚ) (a : ℚ)
    (srcs : List Source) (J1 J2 : ℕ → Junk) (dx dy dt : ℚ) (nx ny : ℕ)
    (ts : List ℚ) (ez1 ez2 : Grid3) (k i j : ℕ) (hk : k < ts.length)
    (hi : i < nx) (hj : j < ny) :
    (run m rcos rexp (srcs.map (Source.scaleAmp a)) J2
      (Config.make dx dy dt nx ny ts) ez2).ezTime k i j =
      a * (run m rcos rexp srcs J1
        (Config.make dx dy dt nx ny ts) ez1).ezTime k i j := by
  have hinv0 : ScaledInv a
      ⟨Config.make dx dy dt nx ny ts, FieldSet.init, ez1⟩
      ⟨Config.make dx dy dt nx ny ts, FieldSet.init, ez2⟩ := by
    refine ⟨rfl, ?_, ?_, ?_, ?_⟩
    · intro i j; show (0 : ℚ) = a * 0; ring
    · intro i j; show (0 : ℚ) = a * 0; ring
    · intro i j _; show (0 : ℚ) = a * 0; ring
    · intro r i j hr _ _
      have hr0 : r < 0 := hr
      omega
  obtain ⟨-, -, -, -, hrec⟩ := runFrom_scaled m hg rcos rexp a srcs J1 J2
    ts.length 0 0 _ _ hinv0
  have hit : (runFrom m rcos rexp srcs J1 0 ts.length
      ⟨Config.make dx dy dt nx ny ts, FieldSet.init, ez1⟩).cfg.iteration =
      ts.length := by
    rw [runFrom_iteration]
    show 0 + ts.length = ts.length
    omega
  have hnx : (runFrom m rcos rexp srcs J1 0 ts.length
      ⟨Config.make dx dy dt nx ny ts, FieldSet.init, ez1⟩).cfg.nx = nx :=
    runFrom_nx m rcos rexp srcs J1 ts.length 0 _
  have hny : (runFrom m rcos rexp srcs J1 0 ts.length
      ⟨Config.make dx dy dt nx ny ts, FieldSet.init, ez1⟩).cfg.ny = ny :=
    runFrom_ny m rcos rexp srcs J1 ts.length 0 _
  exact hrec k i j (by rw [hit]; omega) (by rw [hnx]; omega)
    (by rw [hny]; omega)

/-- Witness for C9 with scale factor 2 on a concrete one-step run. -/
theorem C9_linearity_witness :
    meshUnit.gamma = zeroGrid ∧ meshUnit.n2 = zeroGrid ∧
    (run meshUnit oneFn oneFn ([srcImp].map (Source.scaleAmp 2)) JZ cfg0
      ez37).ezTime 0 0 0 =
      2 * (run meshUnit oneFn oneFn [srcImp] JZ cfg0 ez37).ezTime 0 0 0 :=
  ⟨rfl, rfl,
    C9_linearity meshUnit rfl rfl oneFn oneFn 2 [srcImp] JZ JZ 1 1 1 2 2 [0]
      ez37 ez37 0 0 0 (by norm_num) (by norm_num) (by norm_num)⟩

/-- C10: the run never applies the Kerr correction — the kerr call in the
run loop is commented out and no executed sub-step reads the n2 array,
so replacing the n2 array by any other grid leaves the recorded
Ez_time output identical. -/
theorem C10_kerr_never_applied (m : MeshSet) (g : Grid)
    (rcos rexp : ℚ → ℚ) (srcs : List Source) (J : ℕ → Junk) (c : Config)
    (ez0 : Grid3) :
    (run { m with n2 := g } rcos rexp srcs J c ez0).ezTime =
      (run m rcos rexp srcs J c ez0).ezTime := by
  rw [run, run, runFrom_n2]

end LightWave2D
